import Mathlib

/-!
Verification development for the typed-pg query/DDL compilation engine.

The definitions below are a shallow embedding of the
TypeScript source of the repository: `src/utils.ts` (identifier/value escaping),
`src/query-builder.ts` (the `QueryBuilder` class), and
`src/schema-builder` (the `TableBuilder` and `SchemaBuilder` classes).
JavaScript strings are modelled as Lean `String`/`List Char`, JavaScript
runtime values as the inductive `JSValue`, fallible methods return
`Except String`, and the mutable builder objects are modelled by explicit
state passing: each method takes the builder state and returns the new
state (plus, for terminal methods, the compiled SQL text and positional
parameter list that would be handed to the executor).
-/

namespace TypedPg

/-- The double-quote character, written via its code point. -/
def qc : Char := Char.ofNat 34

/-- The single-quote character, written via its code point. -/
def sq : Char := Char.ofNat 39

/-- Model of a JavaScript runtime value as it can reach the escaping and
query-building routines.  `num` carries an integer (the claims only
exercise integral numbers; `toString` is decimal text).  `date` carries
the `toISOString()` rendering of the `Date` and `obj` carries the
`JSON.stringify` rendering of the plain object, since those conversions
are host-library behaviour, not code of this repository.  `raw` is a
string tagged with `__raw: true` by `rawSql`. -/
inductive JSValue where
  | null
  | undefined
  | bool (b : Bool)
  | num (n : Int)
  | str (s : String)
  | arr (elements : List JSValue)
  | date (iso : String)
  | obj (json : String)
  | func
  | raw (s : String)

/-- `value.elems` extracts the element list of an array value.  The
TypeScript overloads of `where` force `IN`/`NOT IN` condition values to
be arrays, so only the `arr` case is reachable where this is used. -/
def JSValue.elems : JSValue → List JSValue
  | .arr xs => xs
  | _ => []

/-- `String.replace(/t/g, rep)` over a character list: every occurrence
of the character `target` is replaced by the string `rep`. -/
def replaceAllChar (target : Char) (rep : List Char) : List Char → List Char
  | [] => []
  | c :: rest =>
    (if c = target then rep else [c]) ++ replaceAllChar target rep rest

/-- `String.replace(/^["]{1,}/, qc)`: a maximal non-empty leading run of
double quotes is collapsed to a single double quote. -/
def collapseLeadingQuotes (l : List Char) : List Char :=
  match l with
  | c :: _ => if c = qc then qc :: l.dropWhile (· = qc) else l
  | [] => []

/-- `String.replace(/["]{1,}$/, qc)`: a maximal non-empty trailing run of
double quotes is collapsed to a single double quote. -/
def collapseTrailingQuotes (l : List Char) : List Char :=
  (collapseLeadingQuotes l.reverse).reverse

/-- `String.replace(pat, rep)` with a plain (non-regex, non-global)
pattern: only the first occurrence of `pat` is replaced by `rep`. -/
def replaceFirst (pat rep : List Char) : List Char → List Char
  | [] => []
  | c :: rest =>
    if pat.isPrefixOf (c :: rest) then rep ++ (c :: rest).drop pat.length
    else c :: replaceFirst pat rep rest

/-- Is `p` an ASCII uppercase letter? -/
def isUpperAscii (p : Char) : Bool := Char.ofNat 65 ≤ p && p ≤ Char.ofNat 90

/-- Case-insensitive character match as performed by a `/.../i` regex on
an uppercase-letters-and-symbols pattern: the pattern character `p`
matches itself, and an uppercase letter also matches its lowercase
form. -/
def matchCI (p c : Char) : Bool :=
  p == c || (isUpperAscii p && c == Char.ofNat (p.toNat + 32))

/-- Does `pat` case-insensitively match a prefix of the input? -/
def ciIsPrefixOf : List Char → List Char → Bool
  | [], _ => true
  | _ :: _, [] => false
  | p :: ps, c :: cs => matchCI p c && ciIsPrefixOf ps cs

/-- `String.replace(/pat/i, rep)`: the first case-insensitive occurrence
of `pat` is replaced by `rep`. -/
def replaceFirstCI (pat rep : List Char) : List Char → List Char
  | [] => []
  | c :: rest =>
    if ciIsPrefixOf pat (c :: rest) then rep ++ (c :: rest).drop pat.length
    else c :: replaceFirstCI pat rep rest

/-- The pattern of the quoted-star-to-star rewrite step. -/
def starPat : List Char := [qc, '*', qc]

/-- The pattern of the `/"COUNT\(\*\)"/i` → `COUNT(*)` rewrite step. -/
def countPat : List Char := [qc, 'C', 'O', 'U', 'N', 'T', '(', '*', ')', qc]

/-- The replacement text `COUNT(*)` of the count rewrite step. -/
def countRep : List Char := ['C', 'O', 'U', 'N', 'T', '(', '*', ')']

/-- Character-list core of `escapeIdentifier` (src/utils.ts): double
every embedded double quote, rewrite each dot to `"."`, wrap the result
in double quotes, collapse any leading/trailing quote run to a single
quote, then undo quoting around a literal `*` and around a literal
`COUNT(*)` (case-insensitively, first occurrence each). -/
def escapeIdentifierCore (l : List Char) : List Char :=
  replaceFirstCI countPat countRep
    (replaceFirst starPat ['*']
      (collapseTrailingQuotes
        (collapseLeadingQuotes
          (qc :: (replaceAllChar '.' [qc, '.', qc] (replaceAllChar qc [qc, qc] l)) ++ [qc]))))

/-- `escapeIdentifier` (src/utils.ts) on an ordinary string argument. -/
def escapeIdentifier (s : String) : String :=
  ⟨escapeIdentifierCore s.data⟩

/-- An identifier-position argument: either an ordinary string (escaped)
or a `rawSql`-tagged string (returned unchanged by the escaper). -/
inductive SqlArg where
  | ident (s : String)
  | raw (s : String)
deriving DecidableEq

/-- `escapeIdentifier` on a string-or-RawSql argument: a value tagged
`__raw: true` is returned as-is, everything else goes through the
string escaper. -/
def escapeIdentifierArg : SqlArg → String
  | .raw s => s
  | .ident s => escapeIdentifier s

/-- Double every single quote in a string (the quote-doubling rewrite used
for string literals and JSON text). -/
def doubleSingleQuotes (s : String) : String :=
  ⟨replaceAllChar sq [sq, sq] s.data⟩

/-- Wrap a string in single quotes. -/
def singleQuoted (s : String) : String :=
  ⟨sq :: s.data ++ [sq]⟩

mutual

/-- `escapeValue` (src/utils.ts), checked in source order: raw
passthrough, `null`, booleans, numbers, strings (with the `now()`
sentinel passed through unquoted), arrays (recursively escaped),
`Date`s, plain objects, and an `Unsupported value` error for anything
else — in particular `undefined` and function values. -/
def escapeValue : JSValue → Except String String
  | .raw s => .ok s
  | .null => .ok "NULL"
  | .bool b => .ok (if b then "TRUE" else "FALSE")
  | .num n => .ok (toString n)
  | .str s => .ok (if s = "now()" then s else singleQuoted (doubleSingleQuotes s))
  | .arr xs =>
    match escapeValueList xs with
    | .ok parts => .ok ("ARRAY[" ++ String.intercalate "," parts ++ "]")
    | .error e => .error e
  | .date iso => .ok (singleQuoted iso)
  | .obj json => .ok (singleQuoted (doubleSingleQuotes json))
  | .undefined => .error "Unsupported value: undefined"
  | .func => .error "Unsupported value: function"

/-- `value.map(escapeValue)` with exception propagation. -/
def escapeValueList : List JSValue → Except String (List String)
  | [] => .ok []
  | v :: rest =>
    match escapeValue v with
    | .error e => .error e
    | .ok s =>
      match escapeValueList rest with
      | .error e => .error e
      | .ok ss => .ok (s :: ss)

end

/-! ## QueryBuilder (src/query-builder.ts) -/

/-- The boolean connective tag of a WHERE condition. -/
inductive BoolJoin where
  | and
  | or
deriving DecidableEq

/-- The text `AND` / `OR` as it appears in the condition records. -/
def BoolJoin.text : BoolJoin → String
  | .and => "AND"
  | .or => "OR"

/-- A `WhereCondition`: a structured column condition (column name,
operator token, comparison value) or a raw SQL fragment with its own
parameters, each tagged with its boolean connective. -/
inductive WhereCondition where
  | column (type : BoolJoin) (column : String) (operator : String) (value : JSValue)
  | raw (type : BoolJoin) (sql : String) (params : List JSValue)

/-- An `OrderByCondition`: a column with a direction token, or a raw SQL
fragment with parameters. -/
inductive OrderByCondition where
  | column (column : String) (direction : String)
  | raw (sql : String) (params : List JSValue)

/-- The `INNER` or `LEFT` join kind. -/
inductive JoinType where
  | inner
  | left
deriving DecidableEq

/-- A `JoinCondition` record. -/
structure JoinCondition where
  type : JoinType
  table : SqlArg
  left : SqlArg
  operator : String
  right : SqlArg

/-- A select-list entry: a plain column name or a `JsonSelectField`
(JSONB projection with a field list and optional alias). -/
inductive SelectColumn where
  | plain (name : String)
  | jsonField (column : String) (fields : List String) (aliasName : Option String)

/-- The accumulated state of a `QueryBuilder` instance. -/
structure QueryBuilder where
  table : String
  selectColumns : List SelectColumn
  whereConditions : List WhereCondition
  limitValue : Option Int
  offsetValue : Option Int
  orderByConditions : List OrderByCondition
  joinConditions : List JoinCondition

/-- A fresh `QueryBuilder` for a table: every accumulator empty. -/
def QueryBuilder.init (table : String) : QueryBuilder :=
  { table := table
    selectColumns := []
    whereConditions := []
    limitValue := none
    offsetValue := none
    orderByConditions := []
    joinConditions := [] }

/-- `select(...columns)`: a non-empty argument list overwrites the
selected columns; an empty call leaves the state unchanged. -/
def QueryBuilder.select (st : QueryBuilder) (columns : List SelectColumn) : QueryBuilder :=
  if columns.length > 0 then { st with selectColumns := columns } else st

/-- The null-operator membership test of the 2-argument branch: only
those two exact strings are members. -/
def isNullOpToken : JSValue → Bool
  | .str s => s == "IS NULL" || s == "IS NOT NULL"
  | _ => false

/-- The fixed `Operators` list of src/query-builder.ts. -/
def OperatorsList : List String :=
  ["=", "!=", "<", "<=", ">", ">=", "IN", "NOT IN", "IS NULL", "IS NOT NULL", "@>"]

/-- `Operators.includes(v)` on a runtime value. -/
def isOperatorToken : JSValue → Bool
  | .str s => OperatorsList.contains s
  | _ => false

/-- Text of an operator-position value, used both for the pushed
condition and for the `Invalid operator` message interpolation. -/
def operatorText : JSValue → String
  | .str s => s
  | _ => "non-string"

/-- The `typeof value` check against the undefined type tag. -/
def JSValue.isUndef : JSValue → Bool
  | .undefined => true
  | _ => false

/-- Shared implementation of `where` and `orWhere` (they differ only in
the connective tag): when the third argument is absent and the second is
not a null-operator token, the second argument is recorded as the value
of an `=` condition with no validation; otherwise the second argument
must be a member of `Operators` or an `Invalid operator` error is
thrown. -/
def QueryBuilder.whereImpl (st : QueryBuilder) (tag : BoolJoin) (column : String)
    (operatorOrValue : JSValue) (value : JSValue) : Except String QueryBuilder :=
  if value.isUndef && !(isNullOpToken operatorOrValue) then
    .ok { st with whereConditions :=
      st.whereConditions ++ [.column tag column "=" operatorOrValue] }
  else if isOperatorToken operatorOrValue then
    .ok { st with whereConditions :=
      st.whereConditions ++ [.column tag column (operatorText operatorOrValue) value] }
  else
    .error ("Invalid operator: " ++ operatorText operatorOrValue)

/-- `where(column, operatorOrValue, value?)`; an absent third argument is
the `undefined` value. -/
def QueryBuilder.whereFn (st : QueryBuilder) (column : String)
    (operatorOrValue : JSValue) (value : JSValue) : Except String QueryBuilder :=
  st.whereImpl .and column operatorOrValue value

/-- `orWhere(column, operatorOrValue, value?)`. -/
def QueryBuilder.orWhere (st : QueryBuilder) (column : String)
    (operatorOrValue : JSValue) (value : JSValue) : Except String QueryBuilder :=
  st.whereImpl .or column operatorOrValue value

/-- `whereRaw(sql, ...params)`. -/
def QueryBuilder.whereRaw (st : QueryBuilder) (sql : String) (params : List JSValue) : QueryBuilder :=
  { st with whereConditions := st.whereConditions ++ [.raw .and sql params] }

/-- `orWhereRaw(sql, ...params)`. -/
def QueryBuilder.orWhereRaw (st : QueryBuilder) (sql : String) (params : List JSValue) : QueryBuilder :=
  { st with whereConditions := st.whereConditions ++ [.raw .or sql params] }

/-- `limit(value)`. -/
def QueryBuilder.limit (st : QueryBuilder) (value : Int) : QueryBuilder :=
  { st with limitValue := some value }

/-- `offset(value)`. -/
def QueryBuilder.offset (st : QueryBuilder) (value : Int) : QueryBuilder :=
  { st with offsetValue := some value }

/-- The fixed `QueryOrderDirections` list. -/
def QueryOrderDirections : List String := ["ASC", "DESC", "asc", "desc"]

/-- `orderBy(column, direction)`: validates the direction token, then
appends a column order-by condition. -/
def QueryBuilder.orderBy (st : QueryBuilder) (column : String) (direction : String) :
    Except String QueryBuilder :=
  if QueryOrderDirections.contains direction then
    .ok { st with orderByConditions := st.orderByConditions ++ [.column column direction] }
  else
    .error ("Invalid order direction: " ++ direction)

/-- `orderByRaw(sql, ...params)`. -/
def QueryBuilder.orderByRaw (st : QueryBuilder) (sql : String) (params : List JSValue) : QueryBuilder :=
  { st with orderByConditions := st.orderByConditions ++ [.raw sql params] }

/-- The compile mode of `buildWhereSql`: query or update. -/
inductive WhereMode where
  | query
  | update
deriving DecidableEq

/-- JavaScript number truthiness of an optional numeric field: absent
and zero are falsy. -/
def jsTruthy : Option Int → Bool
  | none => false
  | some n => n != 0

/-- The SQL text and parameters contributed by the WHERE condition at
position `idx` of the condition list (the first condition carries no
connective text). -/
def whereItemSql (mode : WhereMode) (idx : Nat) : WhereCondition → String × List JSValue
  | .raw tag sql params =>
    ((if idx > 0 then tag.text ++ " " else "") ++ "(" ++ sql ++ ")", params)
  | .column tag column operator value =>
    let pfx := if idx > 0 then tag.text ++ " " else ""
    if operator = "IS NULL" ∨ operator = "IS NOT NULL" then
      (pfx ++ escapeIdentifier column ++ " " ++ operator, [])
    else if operator = "IN" ∨ operator = "NOT IN" then
      match mode with
      | .update => (pfx ++ escapeIdentifier column ++ " = ANY(?)", [value])
      | .query =>
        (pfx ++ escapeIdentifier column ++ " " ++ operator ++ " (" ++
          String.intercalate "," (value.elems.map (fun _ => "?")) ++ ")", value.elems)
    else
      (pfx ++ escapeIdentifier column ++ " " ++ operator ++ " ?", [value])

/-- `buildWhereSql(mode)`: empty condition list compiles to the empty
string and no parameters; otherwise `WHERE` followed by the
space-joined condition fragments, with the parameters of the fragments
concatenated in emission order. -/
def buildWhereSql (mode : WhereMode) (conds : List WhereCondition) : String × List JSValue :=
  if conds.isEmpty then ("", [])
  else
    let pieces := conds.enum.map (fun ic => whereItemSql mode ic.1 ic.2)
    ("WHERE " ++ String.intercalate " " (pieces.map Prod.fst),
      (pieces.map Prod.snd).flatten)

/-- The text of one JOIN clause. -/
def joinItemSql (c : JoinCondition) : String :=
  (if c.type = .left then "LEFT JOIN" else "JOIN") ++ " " ++ escapeIdentifierArg c.table ++
    " ON " ++ escapeIdentifierArg c.left ++ " " ++ c.operator ++ " " ++ escapeIdentifierArg c.right

/-- `buildJoinSql()`: space-joined JOIN clauses in declaration order. -/
def buildJoinSql (conds : List JoinCondition) : String :=
  String.intercalate " " (conds.map joinItemSql)

/-- `c.alias || c.column`: JavaScript `||` falls back to the column name
when the alias is absent or the empty string. -/
def jsAliasOr (aliasName : Option String) (column : String) : String :=
  match aliasName with
  | some a => if a = "" then column else a
  | none => column

/-- The select-list text of one selected column: a plain column is
escaped; a JSON projection compiles to a `jsonb_build_object(...)`
expression aliased to the chosen alias or the source column. -/
def selectItemSql : SelectColumn → String
  | .plain c => escapeIdentifier c
  | .jsonField column fields aliasName =>
    "jsonb_build_object(" ++
      String.intercalate ","
        (fields.map (fun f =>
          singleQuoted f ++ ", " ++ escapeIdentifier column ++ "->" ++ singleQuoted f)) ++
      ") AS " ++ escapeIdentifier (jsAliasOr aliasName column)

/-- The `LIMIT ?` / `OFFSET ?` piece and parameter: emitted only when
the stored value is truthy (absent and `0` emit nothing). -/
def limitPiece (v : Option Int) (kw : String) : List String × List JSValue :=
  match v with
  | some n => if n = 0 then ([], []) else ([kw], [.num n])
  | none => ([], [])

/-- The `ORDER BY` body: comma-joined order specs with their raw
parameters concatenated in emission order. -/
def buildOrderBySql (conds : List OrderByCondition) : String × List JSValue :=
  let pieces := conds.map (fun c =>
    match c with
    | .raw sql params => (sql, params)
    | .column column direction => (escapeIdentifier column ++ " " ++ direction, []))
  (String.intercalate "," (pieces.map Prod.fst), (pieces.map Prod.snd).flatten)

/-- `toSql()`: emits `SELECT <columns>` (`*` when the joined select list
is empty), `FROM <table>`, the JOIN clauses, the WHERE clause (pushed
even when empty, exactly as the source does), `ORDER BY`, `LIMIT ?`,
`OFFSET ?`, joined by single spaces; parameters are the WHERE
parameters, then the ORDER BY raw parameters, then the limit, then the
offset. -/
def QueryBuilder.toSql (st : QueryBuilder) : String × List JSValue :=
  let colsJoined := String.intercalate "," (st.selectColumns.map selectItemSql)
  let colsStr := if colsJoined = "" then "*" else colsJoined
  let joinSql := buildJoinSql st.joinConditions
  let whereRes := buildWhereSql .query st.whereConditions
  let orderRes := buildOrderBySql st.orderByConditions
  let limitRes := limitPiece st.limitValue "LIMIT ?"
  let offsetRes := limitPiece st.offsetValue "OFFSET ?"
  (String.intercalate " "
      (["SELECT", colsStr, "FROM", escapeIdentifier st.table] ++
        (if joinSql = "" then [] else [joinSql]) ++
        [whereRes.1] ++
        (if st.orderByConditions.isEmpty then [] else ["ORDER BY", orderRes.1]) ++
        limitRes.1 ++ offsetRes.1),
    whereRes.2 ++ orderRes.2 ++ limitRes.2 ++ offsetRes.2)

/-- `update(values, options)`: compiles `UPDATE ... SET ...` with the
WHERE clause built in update mode, failing with `Missing where
conditions` when the built WHERE text is empty, before anything is
handed to the executor.  On success it returns the statement and
parameter list passed to `client.raw`. -/
def QueryBuilder.update (st : QueryBuilder) (values : List (String × JSValue))
    (returning : List String) : Except String (String × List JSValue) :=
  let params := values.map Prod.snd
  let setSql := String.intercalate "," (values.map (fun kv => escapeIdentifier kv.1 ++ " = ?"))
  let whereRes := buildWhereSql .update st.whereConditions
  if whereRes.1 = "" then .error "Missing where conditions"
  else
    .ok (String.intercalate " "
        (["UPDATE", escapeIdentifier st.table, "SET", setSql, whereRes.1] ++
          (if returning.isEmpty then []
           else ["RETURNING", String.intercalate "," (returning.map escapeIdentifier)])),
      params ++ whereRes.2)

/-- `delete()`: compiles `DELETE FROM ... WHERE ...`, failing with
`Missing where conditions` when the built WHERE text is empty, before
anything is handed to the executor. -/
def QueryBuilder.deleteFn (st : QueryBuilder) : Except String (String × List JSValue) :=
  let whereRes := buildWhereSql .query st.whereConditions
  if whereRes.1 = "" then .error "Missing where conditions"
  else
    .ok (String.intercalate " " (["DELETE FROM", escapeIdentifier st.table] ++ [whereRes.1]),
      whereRes.2)

/-- `count()`: compiles its own `SELECT COUNT(*) AS count` query sharing
the FROM/JOIN/WHERE clauses.  The method assigns no builder field, so
the returned post-state is the input state itself. -/
def QueryBuilder.count (st : QueryBuilder) : (String × List JSValue) × QueryBuilder :=
  let joinSql := buildJoinSql st.joinConditions
  let whereRes := buildWhereSql .query st.whereConditions
  ((String.intercalate " "
      (["SELECT COUNT(*) AS count", "FROM", escapeIdentifier st.table] ++
        (if joinSql = "" then [] else [joinSql]) ++ [whereRes.1]),
    whereRes.2), st)

/-- `pluck(column)`: overwrites `selectColumns` with the single named
column, then compiles with `toSql`; the post-state carries the
overwritten select list. -/
def QueryBuilder.pluck (st : QueryBuilder) (column : String) :
    (String × List JSValue) × QueryBuilder :=
  let st2 := { st with selectColumns := [.plain column] }
  (st2.toSql, st2)

/-- The `DO UPDATE SET` column selection of `upsert`: the keys of the
first row that are not conflict columns and, when an `update` list is
given, are members of it. -/
def doUpdateCols (keys conflict : List String) (updateCols : Option (List String)) : List String :=
  keys.filter (fun c =>
    !conflict.contains c &&
      (match updateCols with
        | some u => u.contains c
        | none => true))

/-- The `DO UPDATE SET` assignment fragments: each selected column is
assigned `EXCLUDED.<column>`. -/
def doUpdateAssignments (keys conflict : List String) (updateCols : Option (List String)) :
    List String :=
  (doUpdateCols keys conflict updateCols).map
    (fun c => escapeIdentifier c ++ " = EXCLUDED." ++ escapeIdentifier c)

/-- `upsert(values, {conflict, update?, returning?})`: compiles the
`INSERT ... ON CONFLICT (...) DO UPDATE SET ...` statement (empty
fragments are dropped by the `filter(Boolean)` in the source) and the
flattened row values as parameters. -/
def QueryBuilder.upsert (st : QueryBuilder) (valuesArray : List (List (String × JSValue)))
    (conflict : List String) (updateCols : Option (List String)) (returning : List String) :
    String × List JSValue :=
  let firstKeys := (valuesArray.headD []).map Prod.fst
  let pieces :=
    ["INSERT INTO", escapeIdentifier st.table, "(",
      String.intercalate "," (firstKeys.map escapeIdentifier),
      ") VALUES",
      String.intercalate ","
        (valuesArray.map (fun v =>
          "(" ++ String.intercalate "," (v.map (fun _ => "?")) ++ ")")),
      "ON CONFLICT",
      "(" ++ String.intercalate "," (conflict.map escapeIdentifier) ++ ")",
      "DO UPDATE SET",
      String.intercalate "," (doUpdateAssignments firstKeys conflict updateCols),
      if returning.isEmpty then ""
      else "RETURNING " ++ String.intercalate "," (returning.map escapeIdentifier)]
  (String.intercalate " " (pieces.filter (fun p => p ≠ "")),
    (valuesArray.map (fun v => v.map Prod.snd)).flatten)

/-! ## TableBuilder (src/schema-builder/table-builder.ts) -/

/-- An insertion-ordered JavaScript `Map` lookup over an association
list. -/
def jsMapGet {α : Type} (m : List (String × α)) (k : String) : Option α :=
  (m.find? (fun kv => kv.1 == k)).map Prod.snd

/-- JavaScript `Map.set`: an existing key is updated in place, a new key
is appended at the end. -/
def jsMapSet {α : Type} (m : List (String × α)) (k : String) (v : α) : List (String × α) :=
  if (m.find? (fun kv => kv.1 == k)).isSome then
    m.map (fun kv => if kv.1 == k then (k, v) else kv)
  else
    m ++ [(k, v)]

/-- JavaScript `Map.delete`: the entry of the key is removed, order of the
rest preserved. -/
def jsMapDelete {α : Type} (m : List (String × α)) (k : String) : List (String × α) :=
  m.filter (fun kv => kv.1 ≠ k)

/-- A column default value: the TypeScript type is
`string | number | boolean | null`. -/
inductive DefaultValue where
  | str (s : String)
  | num (n : Int)
  | bool (b : Bool)
  | null

/-- The runtime value of a `DefaultValue`. -/
def DefaultValue.toJS : DefaultValue → JSValue
  | .str s => .str s
  | .num n => .num n
  | .bool b => .bool b
  | .null => .null

/-- `escapeValue` applied to a column default; on this value domain the
escaper never throws, so the error branch is unreachable. -/
def escapeDefault (v : DefaultValue) : String :=
  match escapeValue v.toJS with
  | .ok s => s
  | .error e => e

/-- A `ColumnDefinition` record: the type text plus the optional
constraint fields (`none` models an absent field). -/
structure ColumnDefinition where
  type : String
  nullable : Option Bool
  defaultValue : Option DefaultValue
  primary : Option Bool
  unique : Option Bool
  check : Option String
  references : Option (String × String)
  collate : Option String

/-- A bare column definition carrying only its type, as created by the
column helper calls. -/
def ColumnDefinition.ofType (t : String) : ColumnDefinition :=
  { type := t
    nullable := none
    defaultValue := none
    primary := none
    unique := none
    check := none
    references := none
    collate := none }

/-- A `Partial<ColumnDefinition>` passed to `alterColumn`: every field
optional (present fields override on merge). -/
structure ColumnChanges where
  type : Option String
  nullable : Option Bool
  defaultValue : Option DefaultValue
  primary : Option Bool
  unique : Option Bool
  check : Option String
  references : Option (String × String)
  collate : Option String

/-- An empty change set. -/
def ColumnChanges.empty : ColumnChanges :=
  { type := none
    nullable := none
    defaultValue := none
    primary := none
    unique := none
    check := none
    references := none
    collate := none }

/-- The object spread `{ ...column, ...changes }`: fields present in the
change set replace the fields of the column. -/
def mergeChanges (c : ColumnDefinition) (ch : ColumnChanges) : ColumnDefinition :=
  { type := ch.type.getD c.type
    nullable := ch.nullable.or c.nullable
    defaultValue := ch.defaultValue.or c.defaultValue
    primary := ch.primary.or c.primary
    unique := ch.unique.or c.unique
    check := ch.check.or c.check
    references := ch.references.or c.references
    collate := ch.collate.or c.collate }

/-- A queued `AlterOperation`. -/
inductive AlterOperation where
  | renameColumn (fromName toName : String)
  | dropColumn (name : String)
  | alterColumn (name : String) (changes : ColumnChanges)
  | dropIndex (name : String)

/-- The create or alter table-builder mode. -/
inductive TableBuilderMode where
  | create
  | alter
deriving DecidableEq

/-- An `IndexDefs` record. -/
structure IndexDefs where
  columns : List String
  unique : Option Bool
  indexType : Option String

/-- The accumulated state of a `TableBuilder` instance. -/
structure TableBuilder where
  tableName : String
  mode : TableBuilderMode
  columns : List (String × ColumnDefinition)
  indices : List (String × IndexDefs)
  operations : List AlterOperation
  raws : List String

/-- A fresh `TableBuilder`. -/
def TableBuilder.init (tableName : String) (mode : TableBuilderMode) : TableBuilder :=
  { tableName := tableName
    mode := mode
    columns := []
    indices := []
    operations := []
    raws := [] }

/-- The private `column` helper: registers a named column with a bare
type definition. -/
def TableBuilder.column (tb : TableBuilder) (name : String) (type : String) : TableBuilder :=
  { tb with columns := jsMapSet tb.columns name (ColumnDefinition.ofType type) }

/-- `renameColumn(from, to)`: when the column is absent from the pending
map, create mode throws and alter mode queues a `renameColumn`
operation; when present, the entry is moved to the new name with no
queued operation. -/
def TableBuilder.renameColumn (tb : TableBuilder) (fromName toName : String) :
    Except String TableBuilder :=
  match jsMapGet tb.columns fromName with
  | none =>
    match tb.mode with
    | .create =>
      .error ("renameColumn failed: Column \"" ++ fromName ++ "\" does not exist")
    | .alter =>
      .ok { tb with operations := tb.operations ++ [.renameColumn fromName toName] }
  | some column =>
    .ok { tb with columns := jsMapSet (jsMapDelete tb.columns fromName) toName column }

/-- `alterColumn(name, changes)`: when the column is absent from the
pending map, create mode throws and alter mode queues an `alterColumn`
operation; when present, the in-memory definition is spread-merged with
the changes and no operation is queued. -/
def TableBuilder.alterColumn (tb : TableBuilder) (name : String) (changes : ColumnChanges) :
    Except String TableBuilder :=
  match jsMapGet tb.columns name with
  | none =>
    match tb.mode with
    | .create =>
      .error ("alterColumn failed: Column \"" ++ name ++ "\" does not exist")
    | .alter =>
      .ok { tb with operations := tb.operations ++ [.alterColumn name changes] }
  | some column =>
    .ok { tb with columns := jsMapSet tb.columns name (mergeChanges column changes) }

/-- `columnToSQL(name, def)`: the inline column definition text of a
column, falsy parts dropped. -/
def columnToSQL (name : String) (d : ColumnDefinition) : String :=
  String.intercalate " "
    ([escapeIdentifier name, d.type,
      if d.nullable.getD false then "NULL" else "NOT NULL"] ++
      (match d.defaultValue with
        | some v => ["DEFAULT " ++ escapeDefault v ++ "::" ++ d.type]
        | none => []) ++
      (if d.primary.getD false then ["PRIMARY KEY"] else []) ++
      (if d.unique.getD false then ["UNIQUE"] else []) ++
      (match d.references with
        | some tc => ["REFERENCES " ++ tc.1 ++ "(" ++ tc.2 ++ ")"]
        | none => []))

/-- One present field of a `Partial<ColumnDefinition>`, as produced by
`Object.entries(changes)`. -/
inductive ChangeEntry where
  | type (v : String)
  | nullable (v : Bool)
  | defaultValue (v : DefaultValue)
  | primary (v : Bool)
  | unique (v : Bool)
  | check (v : String)
  | references (table column : String)
  | collate (v : String)

/-- `Object.entries(changes)` restricted to present fields, in field
declaration order. -/
def ColumnChanges.entries (ch : ColumnChanges) : List ChangeEntry :=
  (match ch.type with | some v => [ChangeEntry.type v] | none => []) ++
  (match ch.nullable with | some v => [ChangeEntry.nullable v] | none => []) ++
  (match ch.defaultValue with | some v => [ChangeEntry.defaultValue v] | none => []) ++
  (match ch.primary with | some v => [ChangeEntry.primary v] | none => []) ++
  (match ch.unique with | some v => [ChangeEntry.unique v] | none => []) ++
  (match ch.check with | some v => [ChangeEntry.check v] | none => []) ++
  (match ch.references with | some tc => [ChangeEntry.references tc.1 tc.2] | none => []) ++
  (match ch.collate with | some v => [ChangeEntry.collate v] | none => [])

/-- `alterToSql(columnName, type, value)`: the ALTER sub-clause for one
changed field. -/
def alterToSql (tableName columnName : String) : ChangeEntry → String
  | .type v =>
    "ALTER COLUMN " ++ escapeIdentifier columnName ++ " SET DATA TYPE " ++ v ++ ";"
  | .nullable v =>
    "ALTER COLUMN " ++ escapeIdentifier columnName ++ " " ++
      (if v then "DROP" else "SET") ++ " NOT NULL;"
  | .defaultValue v =>
    "ALTER COLUMN " ++ escapeIdentifier columnName ++ " SET DEFAULT " ++ escapeDefault v ++ ";"
  | .primary v =>
    if v then "ADD PRIMARY KEY (" ++ escapeIdentifier columnName ++ ")"
    else "DROP CONSTRAINT IF EXISTS " ++ escapeIdentifier (tableName ++ "_pkey") ++ ";"
  | .unique v =>
    if v then "ADD UNIQUE (" ++ escapeIdentifier columnName ++ ")"
    else "DROP CONSTRAINT IF EXISTS " ++
      escapeIdentifier (tableName ++ "_" ++ columnName ++ "_unique") ++ ";"
  | .check v => "ADD CHECK (" ++ v ++ ");"
  | .references table column =>
    "ALTER COLUMN " ++ escapeIdentifier columnName ++ " ADD REFERENCES " ++
      table ++ "(" ++ column ++ ");"
  | .collate v =>
    "ALTER COLUMN " ++ escapeIdentifier columnName ++ " SET COLLATE " ++ v ++ ";"

/-- `indexToSQL(name, defs)`. -/
def indexToSQL (tableName name : String) (defs : IndexDefs) : String :=
  String.intercalate " "
    ((["CREATE"] ++ (if defs.unique.getD false then ["UNIQUE"] else []) ++
      ["INDEX", escapeIdentifier name, "ON", escapeIdentifier tableName] ++
      (match defs.indexType with | some t => ["USING " ++ t] | none => []) ++
      ["(" ++ String.intercalate ", " (defs.columns.map escapeIdentifier) ++ ");"]))

/-- The statement(s) for one queued alter operation. -/
def alterOperationSQL (tableName : String) : AlterOperation → List String
  | .renameColumn fromName toName =>
    ["ALTER TABLE " ++ escapeIdentifier tableName ++ " RENAME COLUMN " ++
      escapeIdentifier fromName ++ " TO " ++ escapeIdentifier toName ++ ";\n"]
  | .dropColumn name =>
    ["ALTER TABLE " ++ escapeIdentifier tableName ++ " DROP COLUMN \"" ++ name ++ "\";\n"]
  | .alterColumn name changes =>
    changes.entries.map (fun e =>
      "ALTER TABLE " ++ escapeIdentifier tableName ++ " " ++ alterToSql tableName name e ++ ";")
  | .dropIndex name =>
    ["DROP INDEX IF EXISTS " ++ escapeIdentifier name ++ ";"]

/-- `TableBuilder.toSQL()`: create mode emits one `CREATE TABLE`
statement over the pending columns; alter mode emits one `ADD COLUMN`
statement per pending column followed by the queued operations in
issuance order; both append the newline-joined index statements and the
raw passthrough statements. -/
def TableBuilder.toSQL (tb : TableBuilder) : List String :=
  let columnDefs := tb.columns.map (fun kv => columnToSQL kv.1 kv.2)
  (match tb.mode with
    | .create =>
      ["CREATE TABLE " ++ escapeIdentifier tb.tableName ++ " (\n" ++
        String.intercalate ",\n" columnDefs ++ "\n);\n"]
    | .alter =>
      columnDefs.map (fun c =>
        "ALTER TABLE " ++ escapeIdentifier tb.tableName ++ " ADD COLUMN " ++ c ++ ";") ++
      (tb.operations.map (alterOperationSQL tb.tableName)).flatten) ++
  [String.intercalate "\n" (tb.indices.map (fun kv => indexToSQL tb.tableName kv.1 kv.2))] ++
  tb.raws

/-! ## SchemaBuilder (src/schema-builder/index.ts) -/

/-- One entry of the schema change set: a raw SQL string
(`renameTable`/`dropTable`) or an accumulated `TableBuilder`. -/
inductive SchemaChange where
  | raw (sql : String)
  | table (tb : TableBuilder)

/-- The accumulated state of a `SchemaBuilder` instance. -/
structure SchemaBuilder where
  changes : List SchemaChange

/-- `SchemaBuilder.toSQL()`: statements of every change in accumulation
order. -/
def SchemaBuilder.toSQL (sb : SchemaBuilder) : List String :=
  (sb.changes.map (fun c =>
    match c with
    | .raw s => [s]
    | .table tb => tb.toSQL)).flatten

/-- `SchemaBuilder.run()`, with the transactional executor modelled as a
function from the batched SQL text to success or failure.  An empty
statement list returns immediately; otherwise the newline-joined batch
is handed to the executor: on failure the error is rethrown with the
generated SQL text appended and the change set is kept; only on success
is the change set cleared.  The returned pair is the thrown/returned
outcome together with the post-call builder state. -/
def SchemaBuilder.run (sb : SchemaBuilder) (exec : String → Except String Unit) :
    Except String Unit × SchemaBuilder :=
  let statements := sb.toSQL
  if statements.isEmpty then (.ok (), sb)
  else
    let sql := String.intercalate "\n" statements
    match exec sql with
    | .error e => (.error (e ++ "\n\nSQL: " ++ sql), sb)
    | .ok _ => (.ok (), { sb with changes := [] })

/-! ## Un-quoting (the reading of a quoted identifier taken by the spec)

The round-trip claim about `escapeIdentifier` speaks of "stripping the
enclosing quotes and collapsing each doubled quote"; these definitions
formalise that reading. -/

/-- Strip one enclosing double quote from each end, when both are
present. -/
def stripEnclosingQuotes (l : List Char) : List Char :=
  match l with
  | c :: rest =>
    if c = qc ∧ rest.getLast? = some qc then rest.dropLast else l
  | [] => []

/-- Collapse every doubled double quote to a single one,
left to right. -/
def collapseDoubledQuotes : List Char → List Char
  | [] => []
  | [c] => [c]
  | a :: b :: rest =>
    if a = qc ∧ b = qc then qc :: collapseDoubledQuotes rest
    else a :: collapseDoubledQuotes (b :: rest)

/-- Un-quote a quoted identifier: strip the enclosing quotes and
collapse each doubled quote. -/
def unquoteIdentifier (s : String) : String :=
  ⟨collapseDoubledQuotes (stripEnclosingQuotes s.data)⟩

end TypedPg

namespace TypedPg

/-! ## Supporting lemmas -/

theorem buildWhereSql_fst_of_ne_nil (mode : WhereMode) (conds : List WhereCondition)
    (h : conds ≠ []) :
    (buildWhereSql mode conds).1 =
      "WHERE " ++ String.intercalate " "
        ((conds.enum.map (fun ic => whereItemSql mode ic.1 ic.2)).map Prod.fst) := by
  unfold buildWhereSql
  rw [if_neg (by simpa using h)]

theorem buildWhereSql_fst_ne_empty (mode : WhereMode) (conds : List WhereCondition)
    (h : conds ≠ []) : (buildWhereSql mode conds).1 ≠ "" := by
  rw [buildWhereSql_fst_of_ne_nil mode conds h]
  intro heq
  have hlen := congrArg String.length heq
  rw [String.length_append] at hlen
  have h6 : ("WHERE " : String).length = 6 := rfl
  have h0 : ("" : String).length = 0 := rfl
  omega

theorem intercalate_singleton (sep x : String) : sep.intercalate [x] = x := rfl

theorem replaceAllChar_of_not_mem (t : Char) (r : List Char) (l : List Char)
    (h : t ∉ l) : replaceAllChar t r l = l := by
  induction l with
  | nil => rfl
  | cons c rest ih =>
    have hc : c ≠ t := fun hc => h (hc ▸ List.mem_cons_self c rest)
    simp [replaceAllChar, hc, ih (fun hm => h (List.mem_cons_of_mem c hm))]

theorem mem_replaceAllChar (t : Char) (r : List Char) (l : List Char) (c : Char)
    (h : c ∈ replaceAllChar t r l) : c ∈ r ∨ c ∈ l := by
  induction l with
  | nil => simp [replaceAllChar] at h
  | cons a rest ih =>
    rw [replaceAllChar, List.mem_append] at h
    rcases h with h | h
    · by_cases ha : a = t
      · rw [if_pos ha] at h
        exact Or.inl h
      · rw [if_neg ha] at h
        rcases List.mem_singleton.mp h with rfl
        exact Or.inr (List.mem_cons_self c rest)
    · rcases ih h with h | h
      · exact Or.inl h
      · exact Or.inr (List.mem_cons_of_mem a h)

theorem replaceAllChar_append (t : Char) (r : List Char) (l1 l2 : List Char) :
    replaceAllChar t r (l1 ++ l2) = replaceAllChar t r l1 ++ replaceAllChar t r l2 := by
  induction l1 with
  | nil => rfl
  | cons c rest ih => simp [replaceAllChar, ih, List.append_assoc]

theorem replaceAllChar_qq_reverse (l : List Char) :
    (replaceAllChar qc [qc, qc] l).reverse = replaceAllChar qc [qc, qc] l.reverse := by
  induction l with
  | nil => rfl
  | cons c rest ih =>
    rw [replaceAllChar, List.reverse_append, ih, List.reverse_cons,
      replaceAllChar_append]
    by_cases hc : c = qc <;> simp [replaceAllChar, hc]

theorem replaceAllChar_qq_ne_nil (l : List Char) (h : l ≠ []) :
    replaceAllChar qc [qc, qc] l ≠ [] := by
  cases l with
  | nil => exact absurd rfl h
  | cons c rest =>
    rw [replaceAllChar]
    by_cases hc : c = qc <;> simp [hc]

theorem collapseDoubled_replaceAll (l : List Char) :
    collapseDoubledQuotes (replaceAllChar qc [qc, qc] l) = l := by
  induction l with
  | nil => rfl
  | cons c rest ih =>
    by_cases hc : c = qc
    · subst hc
      rw [replaceAllChar, if_pos rfl]
      show collapseDoubledQuotes (qc :: qc :: replaceAllChar qc [qc, qc] rest) = _
      rw [collapseDoubledQuotes, if_pos ⟨rfl, rfl⟩, ih]
    · rw [replaceAllChar, if_neg hc]
      show collapseDoubledQuotes (c :: replaceAllChar qc [qc, qc] rest) = _
      cases hB : replaceAllChar qc [qc, qc] rest with
      | nil =>
        cases rest with
        | nil => rfl
        | cons b bs => exact absurd hB (replaceAllChar_qq_ne_nil _ (by simp))
      | cons b bs =>
        rw [collapseDoubledQuotes, if_neg (fun hand => hc hand.1), ← hB, ih]

theorem collapseLeadingQuotes_qc_cons (a : Char) (rest : List Char) (ha : a ≠ qc) :
    collapseLeadingQuotes (qc :: a :: rest) = qc :: a :: rest := by
  simp [collapseLeadingQuotes, List.dropWhile, ha]

theorem replaceFirst_of_not_mem (a : Char) (pat rep l : List Char)
    (hpat : a ∈ pat) (hl : a ∉ l) : replaceFirst pat rep l = l := by
  induction l with
  | nil => rfl
  | cons c rest ih =>
    rw [replaceFirst]
    rw [if_neg (fun hpre => hl (( List.isPrefixOf_iff_prefix.mp hpre).subset hpat))]
    rw [ih (fun hm => hl (List.mem_cons_of_mem c hm))]

theorem ciIsPrefixOf_exists_match (pat m : List Char) (p : Char)
    (h : ciIsPrefixOf pat m = true) (hp : p ∈ pat) :
    ∃ c ∈ m, matchCI p c = true := by
  induction pat generalizing m with
  | nil => simp at hp
  | cons p0 ps ih =>
    cases m with
    | nil => simp [ciIsPrefixOf] at h
    | cons c0 cs =>
      rw [ciIsPrefixOf, Bool.and_eq_true] at h
      rcases List.mem_cons.mp hp with rfl | hp
      · exact ⟨c0, List.mem_cons_self c0 cs, h.1⟩
      · obtain ⟨c, hc, hmc⟩ := ih cs h.2 hp
        exact ⟨c, List.mem_cons_of_mem c0 hc, hmc⟩

theorem replaceFirstCI_of_no_match (p : Char) (pat rep l : List Char)
    (hp : p ∈ pat) (h : ∀ c ∈ l, matchCI p c = false) : replaceFirstCI pat rep l = l := by
  induction l with
  | nil => rfl
  | cons c rest ih =>
    rw [replaceFirstCI]
    rw [if_neg (fun hpre => by
      obtain ⟨c2, hc2, hmc⟩ := ciIsPrefixOf_exists_match pat (c :: rest) p hpre hp
      rw [h c2 hc2] at hmc
      exact Bool.false_ne_true hmc)]
    rw [ih (fun c2 hc2 => h c2 (List.mem_cons_of_mem c hc2))]

theorem matchCI_star (c : Char) : matchCI '*' c = ('*' == c) := by
  have hup : isUpperAscii '*' = false := by decide
  simp [matchCI, hup]

theorem stripEnclosingQuotes_wrap (b : List Char) :
    stripEnclosingQuotes (qc :: b ++ [qc]) = b := by
  show stripEnclosingQuotes (qc :: (b ++ [qc])) = b
  rw [stripEnclosingQuotes, if_pos ⟨rfl, List.getLast?_concat b⟩, List.dropLast_concat]

theorem escapeIdentifierCore_roundtrip (l : List Char) (hq : qc ∈ l)
    (hd : ('.' : Char) ∉ l) (hs : ('*' : Char) ∉ l)
    (hh : l.head? ≠ some qc) (hl : l.getLast? ≠ some qc) :
    escapeIdentifierCore l = qc :: replaceAllChar qc [qc, qc] l ++ [qc] ∧
    collapseDoubledQuotes (stripEnclosingQuotes (escapeIdentifierCore l)) = l := by
  have hnil : l ≠ [] := fun h => by simp [h] at hq
  -- the quote-doubled body
  have hdotB : ('.' : Char) ∉ replaceAllChar qc [qc, qc] l := fun hm => by
    rcases mem_replaceAllChar qc [qc, qc] l '.' hm with h | h
    · simp [qc] at h
    · exact hd h
  have hstarB : ('*' : Char) ∉ replaceAllChar qc [qc, qc] l := fun hm => by
    rcases mem_replaceAllChar qc [qc, qc] l '*' hm with h | h
    · simp [qc] at h
    · exact hs h
  obtain ⟨h0, t0, rfl⟩ : ∃ h0 t0, l = h0 :: t0 := by
    cases l with
    | nil => exact absurd rfl hnil
    | cons a b => exact ⟨a, b, rfl⟩
  have hh0 : h0 ≠ qc := fun h => hh (by simp [h])
  -- step 1: the dot rewrite is the identity on the quote-doubled body
  have step_dot :
      replaceAllChar '.' [qc, '.', qc] (replaceAllChar qc [qc, qc] (h0 :: t0)) =
        replaceAllChar qc [qc, qc] (h0 :: t0) :=
    replaceAllChar_of_not_mem _ _ _ hdotB
  -- the wrapped full string
  set B := replaceAllChar qc [qc, qc] (h0 :: t0) with hB
  have hBcons : B = h0 :: replaceAllChar qc [qc, qc] t0 := by
    rw [hB, replaceAllChar, if_neg hh0]
    rfl
  -- step 2: leading-quote collapse is the identity
  have step_lead : collapseLeadingQuotes (qc :: B ++ [qc]) = qc :: B ++ [qc] := by
    rw [hBcons]
    exact collapseLeadingQuotes_qc_cons h0 _ hh0
  -- step 3: trailing-quote collapse is the identity
  have step_trail : collapseTrailingQuotes (qc :: B ++ [qc]) = qc :: B ++ [qc] := by
    unfold collapseTrailingQuotes
    have hrev : (qc :: B ++ [qc]).reverse = qc :: B.reverse ++ [qc] := by
      simp
    rw [hrev]
    have hBrev : B.reverse = replaceAllChar qc [qc, qc] (h0 :: t0).reverse :=
      replaceAllChar_qq_reverse (h0 :: t0)
    obtain ⟨a0, s0, hrl⟩ : ∃ a0 s0, (h0 :: t0).reverse = a0 :: s0 := by
      cases hr : (h0 :: t0).reverse with
      | nil => exact absurd (by simp [hr] : (h0 :: t0).reverse = []) (by simp)
      | cons a b => exact ⟨a, b, rfl⟩
    have ha0 : a0 ≠ qc := by
      intro h
      apply hl
      rw [← List.head?_reverse, hrl, h]
      rfl
    have hBrevCons : B.reverse = a0 :: replaceAllChar qc [qc, qc] s0 := by
      rw [hBrev, hrl, replaceAllChar, if_neg ha0]
      rfl
    rw [hBrevCons]
    simp only [List.cons_append]
    rw [collapseLeadingQuotes_qc_cons a0 _ ha0]
    have hfold : qc :: a0 :: (replaceAllChar qc [qc, qc] s0 ++ [qc]) =
        (qc :: B ++ [qc]).reverse := by
      rw [hrev, hBrevCons]
      simp only [List.cons_append]
    rw [hfold, List.reverse_reverse]
    rfl
  -- step 4: the `"*"` rewrite is the identity
  have hstarFull : ('*' : Char) ∉ qc :: B ++ [qc] := by
    intro hm
    rcases List.mem_append.mp hm with hm | hm
    · rcases List.mem_cons.mp hm with h | h
      · simp [qc] at h
      · exact hstarB h
    · simp [qc] at hm
  have step_star : replaceFirst starPat ['*'] (qc :: B ++ [qc]) = qc :: B ++ [qc] :=
    replaceFirst_of_not_mem '*' _ _ _ (by simp [starPat]) hstarFull
  -- step 5: the `"COUNT(*)"` rewrite is the identity
  have step_count :
      replaceFirstCI countPat countRep (qc :: B ++ [qc]) = qc :: B ++ [qc] :=
    replaceFirstCI_of_no_match '*' _ _ _ (by simp [countPat])
      (fun c hc => by
        rw [matchCI_star]
        have : c ≠ '*' := fun h => hstarFull (h ▸ hc)
        simp [this.symm])
  have hcore : escapeIdentifierCore (h0 :: t0) = qc :: B ++ [qc] := by
    unfold escapeIdentifierCore
    rw [← hB, step_dot, step_lead, step_trail, step_star, step_count]
  refine ⟨hcore, ?_⟩
  rw [hcore, stripEnclosingQuotes_wrap, hB, collapseDoubled_replaceAll]

/-- The builder state reached by
`select(a,b).where(x, 1).orderBy(x, DESC).limit(5).offset(2)`
on table `t`. -/
def c2Chain : Except String QueryBuilder := do
  let st := (QueryBuilder.init "t").select [.plain "a", .plain "b"]
  let st ← st.whereFn "x" (.num 1) .undefined
  let st ← st.orderBy "x" "DESC"
  pure ((st.limit 5).offset 2)

/-! ## Claims -/

/-- C1: with an empty accumulated WHERE-condition list, `update` and
`delete` both fail with the `Missing where conditions` error and return
no statement for the executor; with at least one condition present
(structured or raw), both compile successfully. -/
theorem claim_C1 (st : QueryBuilder) (values : List (String × JSValue))
    (returning : List String) :
    (st.whereConditions = [] →
      st.update values returning = .error "Missing where conditions" ∧
      st.deleteFn = .error "Missing where conditions") ∧
    (st.whereConditions ≠ [] →
      (∃ out, st.update values returning = .ok out) ∧
      (∃ out, st.deleteFn = .ok out)) := by
  constructor
  · intro h
    constructor
    · unfold QueryBuilder.update
      rw [h]
      rfl
    · unfold QueryBuilder.deleteFn
      rw [h]
      rfl
  · intro h
    constructor
    · unfold QueryBuilder.update
      rw [if_neg (buildWhereSql_fst_ne_empty .update st.whereConditions h)]
      exact ⟨_, rfl⟩
    · unfold QueryBuilder.deleteFn
      rw [if_neg (buildWhereSql_fst_ne_empty .query st.whereConditions h)]
      exact ⟨_, rfl⟩

/-- Witness for C1: on table `users`, `update`/`delete` with no
conditions fail with `Missing where conditions`, and after one raw
condition both compile. -/
theorem claim_C1_witness :
    ((QueryBuilder.init "users").update [("a", JSValue.num 1)] [] =
        .error "Missing where conditions" ∧
      (QueryBuilder.init "users").deleteFn = .error "Missing where conditions") ∧
    ((∃ out, ((QueryBuilder.init "users").whereRaw "id = 1" []).update
        [("a", JSValue.num 1)] [] = .ok out) ∧
      (∃ out, ((QueryBuilder.init "users").whereRaw "id = 1" []).deleteFn = .ok out)) :=
  ⟨(claim_C1 (QueryBuilder.init "users") [("a", JSValue.num 1)] []).1 rfl,
    (claim_C1 ((QueryBuilder.init "users").whereRaw "id = 1" [])
      [("a", JSValue.num 1)] []).2 (by simp [QueryBuilder.whereRaw, QueryBuilder.init])⟩

/-- C2: `toSql` emits the clauses in the fixed order SELECT columns,
FROM table, JOIN clauses, WHERE, ORDER BY, LIMIT, OFFSET, and the
parameter list is the WHERE parameters in declaration order, then the
ORDER BY raw parameters, then the limit, then the offset; on the
concrete chain `select(a,b).where(x, 1).orderBy(x, DESC).limit(5)
.offset(2)` over table `t` this compiles to
`SELECT "a","b" FROM "t" WHERE "x" = ? ORDER BY "x" DESC LIMIT ? OFFSET ?`
with parameters `[1, 5, 2]`. -/
theorem claim_C2 :
    (∀ st : QueryBuilder,
      st.toSql.2 =
        (buildWhereSql .query st.whereConditions).2 ++
          (buildOrderBySql st.orderByConditions).2 ++
          (limitPiece st.limitValue "LIMIT ?").2 ++
          (limitPiece st.offsetValue "OFFSET ?").2) ∧
    (∀ st : QueryBuilder,
      st.toSql.1 =
        String.intercalate " "
          (["SELECT",
            (if String.intercalate "," (st.selectColumns.map selectItemSql) = "" then "*"
              else String.intercalate "," (st.selectColumns.map selectItemSql)),
            "FROM", escapeIdentifier st.table] ++
            (if buildJoinSql st.joinConditions = "" then []
              else [buildJoinSql st.joinConditions]) ++
            [(buildWhereSql .query st.whereConditions).1] ++
            (if st.orderByConditions.isEmpty then []
              else ["ORDER BY", (buildOrderBySql st.orderByConditions).1]) ++
            (limitPiece st.limitValue "LIMIT ?").1 ++
            (limitPiece st.offsetValue "OFFSET ?").1)) ∧
    c2Chain.map QueryBuilder.toSql =
      .ok ("SELECT \"a\",\"b\" FROM \"t\" WHERE \"x\" = ? ORDER BY \"x\" DESC LIMIT ? OFFSET ?",
        [JSValue.num 1, JSValue.num 5, JSValue.num 2]) :=
  ⟨fun _ => rfl, fun _ => rfl, rfl⟩

/-- C6: an `IN`/`NOT IN` condition compiles in update mode to
`<column> = ANY(?)` with the whole array pushed as a single parameter,
and in query mode to `<column> <operator> (?,...,?)` with one
placeholder per element and the elements pushed individually. -/
theorem claim_C6 :
    ∀ (neg : Bool) (tag : BoolJoin) (col : String) (vs : List JSValue),
      buildWhereSql .update [.column tag col (if neg then "NOT IN" else "IN") (.arr vs)] =
        ("WHERE " ++ escapeIdentifier col ++ " = ANY(?)", [JSValue.arr vs]) ∧
      buildWhereSql .query [.column tag col (if neg then "NOT IN" else "IN") (.arr vs)] =
        ("WHERE " ++ escapeIdentifier col ++ " " ++ (if neg then "NOT IN" else "IN") ++
            " (" ++ String.intercalate "," (vs.map (fun _ => "?")) ++ ")",
          vs) := by
  intro neg tag col vs
  cases neg <;> constructor <;>
    unfold buildWhereSql whereItemSql <;>
    simp [JSValue.elems, intercalate_singleton, String.append_assoc] <;>
    rfl

/-- C3 counterexample: the identifier `"a` contains a double quote (at
the start, a position the claim explicitly includes), but un-quoting
un-quoting the output of `escapeIdentifier` does not restore it: the leading-quote-run
collapse turns `"""a"` into `"a"`, which un-quotes to `a`. -/
theorem claim_C3_counterexample :
    qc ∈ ("\"a" : String).data ∧
    unquoteIdentifier (escapeIdentifier "\"a") ≠ "\"a" := by
  exact ⟨by decide, by decide⟩

/-- C3 (amended): for every identifier that contains a double quote but
does not begin or end with one, and that contains no `.` and no `*`
character, `escapeIdentifier` wraps the identifier in double quotes with
each embedded double quote doubled, and un-quoting the output (stripping
the enclosing quotes and collapsing each doubled quote) yields the
original string.  When the embedded quote is the first or last
character the round trip fails, because the leading/trailing quote-run
collapse absorbs the doubled quote into the enclosing one. -/
theorem claim_C3_amended (s : String) (h1 : qc ∈ s.data)
    (h2 : ('.' : Char) ∉ s.data) (h3 : ('*' : Char) ∉ s.data)
    (h4 : s.data.head? ≠ some qc) (h5 : s.data.getLast? ≠ some qc) :
    escapeIdentifier s = ⟨qc :: replaceAllChar qc [qc, qc] s.data ++ [qc]⟩ ∧
    unquoteIdentifier (escapeIdentifier s) = s := by
  obtain ⟨hcore, hround⟩ := escapeIdentifierCore_roundtrip s.data h1 h2 h3 h4 h5
  constructor
  · show (⟨escapeIdentifierCore s.data⟩ : String) = _
    rw [hcore]
  · show (⟨collapseDoubledQuotes (stripEnclosingQuotes (escapeIdentifierCore s.data))⟩ :
      String) = s
    rw [hround]

/-- Witness for the amended C3: the identifier `a"b` escapes to
`"a""b"` and un-quotes back to `a"b`. -/
theorem claim_C3_witness :
    unquoteIdentifier (escapeIdentifier "a\"b") = "a\"b" :=
  (claim_C3_amended "a\"b" (by decide) (by decide) (by decide) (by decide) (by decide)).2

/-- C4: `escapeValue` maps `null` to `NULL`, booleans to `TRUE`/`FALSE`,
numbers to their decimal text, strings to a single-quoted literal with
embedded single quotes doubled except the exact string `now()` which
passes through unquoted, arrays to `ARRAY[...]` over the recursively
escaped elements, `Date`s to their single-quoted ISO-8601 text, plain
objects to their single-quoted JSON text, and it throws an
`Unsupported value` error for `undefined` and for function values. -/
theorem claim_C4 :
    escapeValue .null = .ok "NULL" ∧
    (∀ b, escapeValue (.bool b) = .ok (if b then "TRUE" else "FALSE")) ∧
    (∀ n, escapeValue (.num n) = .ok (toString n)) ∧
    (∀ s, s ≠ "now()" →
      escapeValue (.str s) = .ok (singleQuoted (doubleSingleQuotes s))) ∧
    escapeValue (.str "now()") = .ok "now()" ∧
    (∀ xs, escapeValue (.arr xs) =
      (escapeValueList xs).map (fun parts => "ARRAY[" ++ String.intercalate "," parts ++ "]")) ∧
    (∀ v rest, escapeValueList (v :: rest) =
      (escapeValue v).bind (fun s => (escapeValueList rest).map (fun ss => s :: ss))) ∧
    (∀ iso, escapeValue (.date iso) = .ok (singleQuoted iso)) ∧
    (∀ json, escapeValue (.obj json) = .ok (singleQuoted (doubleSingleQuotes json))) ∧
    escapeValue .undefined = .error "Unsupported value: undefined" ∧
    escapeValue .func = .error "Unsupported value: function" := by
  refine ⟨rfl, fun b => rfl, fun n => rfl, ?_, rfl, ?_, ?_, fun iso => rfl, fun json => rfl,
    rfl, rfl⟩
  · intro s h
    simp [escapeValue, h]
  · intro xs
    cases h : escapeValueList xs <;> simp [escapeValue, h, Except.map]
  · intro v rest
    cases hv : escapeValue v <;>
      cases hr : escapeValueList rest <;>
        simp [escapeValueList, hv, hr, Except.map, Except.bind]

/-- Witness for C4: an ordinary (non-`now()`) string is single-quoted
with its embedded single quote doubled. -/
theorem claim_C4_witness :
    escapeValue (.str "a\x27b") = .ok (singleQuoted (doubleSingleQuotes "a\x27b")) :=
  claim_C4.2.2.2.1 "a\x27b" (by decide)

/-- C5: the `DO UPDATE SET` assignment list of `upsert` contains
exactly the columns of the first row that are not conflict columns and,
when an `update` option is given, are members of the update list; each
assigned column is set to `EXCLUDED.<column>`, so no conflict column
ever appears in the assignment list.  The concrete example of the spec
compiles accordingly. -/
theorem claim_C5 (keys conflict : List String) (updateCols : Option (List String))
    (c : String) :
    (c ∈ doUpdateCols keys conflict updateCols ↔
      c ∈ keys ∧ c ∉ conflict ∧ (∀ u, updateCols = some u → c ∈ u)) ∧
    doUpdateAssignments keys conflict updateCols =
      (doUpdateCols keys conflict updateCols).map
        (fun col => escapeIdentifier col ++ " = EXCLUDED." ++ escapeIdentifier col) ∧
    (QueryBuilder.init "users").upsert
        [[("id", JSValue.num 1), ("name", JSValue.str "A")]] ["id"] none ["name"] =
      ("INSERT INTO \"users\" ( \"id\",\"name\" ) VALUES (?,?) ON CONFLICT (\"id\") " ++
          "DO UPDATE SET \"name\" = EXCLUDED.\"name\" RETURNING \"name\"",
        [JSValue.num 1, JSValue.str "A"]) := by
  refine ⟨?_, rfl, rfl⟩
  cases updateCols <;> simp [doUpdateCols, List.mem_filter]

/-- Witness for C5: with first-row columns `id, name`, conflict `[id]`
and no update list, `name` is assigned (it is a non-conflict column). -/
theorem claim_C5_witness :
    "name" ∈ doUpdateCols ["id", "name"] ["id"] none :=
  (claim_C5 ["id", "name"] ["id"] none "name").1.mpr
    ⟨by simp, by simp, fun u h => by cases h⟩

/-- C7: in create mode, `renameColumn`/`alterColumn` on a column absent
from the pending column map throw; in alter mode the same calls queue a
`renameColumn`/`alterColumn` operation and leave the column map
untouched; and when the column is present, both modes edit the
in-memory definition (move the entry, or spread-merge the changes)
without queueing any operation. -/
theorem claim_C7 (tb : TableBuilder) (fromName toName name : String)
    (changes : ColumnChanges) :
    (tb.mode = .create → jsMapGet tb.columns fromName = none →
      tb.renameColumn fromName toName =
        .error ("renameColumn failed: Column \"" ++ fromName ++ "\" does not exist")) ∧
    (tb.mode = .alter → jsMapGet tb.columns fromName = none →
      tb.renameColumn fromName toName =
        .ok { tb with operations := tb.operations ++ [.renameColumn fromName toName] }) ∧
    (∀ c, jsMapGet tb.columns fromName = some c →
      tb.renameColumn fromName toName =
        .ok { tb with columns := jsMapSet (jsMapDelete tb.columns fromName) toName c }) ∧
    (tb.mode = .create → jsMapGet tb.columns name = none →
      tb.alterColumn name changes =
        .error ("alterColumn failed: Column \"" ++ name ++ "\" does not exist")) ∧
    (tb.mode = .alter → jsMapGet tb.columns name = none →
      tb.alterColumn name changes =
        .ok { tb with operations := tb.operations ++ [.alterColumn name changes] }) ∧
    (∀ c, jsMapGet tb.columns name = some c →
      tb.alterColumn name changes =
        .ok { tb with columns := jsMapSet tb.columns name (mergeChanges c changes) }) := by
  refine ⟨?_, ?_, ?_, ?_, ?_, ?_⟩ <;>
    first
    | (intro hmode habsent
       simp [TableBuilder.renameColumn, TableBuilder.alterColumn, habsent, hmode])
    | (intro c hfound
       simp [TableBuilder.renameColumn, TableBuilder.alterColumn, hfound])

/-- Witness for C7: on a create-mode builder with one column `id`,
renaming the absent column `nope` throws, while on an alter-mode
builder it queues the operation; renaming the present column `id`
moves the entry. -/
theorem claim_C7_witness :
    ((TableBuilder.init "users" .create).column "id" "integer").renameColumn "nope" "x" =
      .error ("renameColumn failed: Column \"" ++ "nope" ++ "\" does not exist") ∧
    (TableBuilder.init "users" .alter).renameColumn "nope" "x" =
      .ok { TableBuilder.init "users" .alter with
        operations :=
          (TableBuilder.init "users" .alter).operations ++ [.renameColumn "nope" "x"] } ∧
    ((TableBuilder.init "users" .create).column "id" "integer").renameColumn "id" "uid" =
      .ok { (TableBuilder.init "users" .create).column "id" "integer" with
        columns :=
          jsMapSet
            (jsMapDelete ((TableBuilder.init "users" .create).column "id" "integer").columns "id")
            "uid" (ColumnDefinition.ofType "integer") } :=
  ⟨(claim_C7 ((TableBuilder.init "users" .create).column "id" "integer")
      "nope" "x" "n" ColumnChanges.empty).1 rfl rfl,
    (claim_C7 (TableBuilder.init "users" .alter) "nope" "x" "n" ColumnChanges.empty).2.1 rfl rfl,
    (claim_C7 ((TableBuilder.init "users" .create).column "id" "integer")
      "id" "uid" "n" ColumnChanges.empty).2.2.1 (ColumnDefinition.ofType "integer") rfl⟩

/-- C8: `run()` clears the accumulated change set only when the
transactional execution succeeds; when the executor rejects, the change
set (and hence the regenerated statement list) is left unchanged and
the failure is rethrown with the full generated SQL text appended. -/
theorem claim_C8 (sb : SchemaBuilder) (exec : String → Except String Unit) (e : String) :
    (sb.toSQL ≠ [] →
      exec (String.intercalate "\n" sb.toSQL) = .error e →
      sb.run exec =
        (.error (e ++ "\n\nSQL: " ++ String.intercalate "\n" sb.toSQL), sb) ∧
        (sb.run exec).2.toSQL = sb.toSQL) ∧
    (sb.toSQL ≠ [] →
      exec (String.intercalate "\n" sb.toSQL) = .ok () →
      sb.run exec = (.ok (), { sb with changes := [] })) := by
  constructor
  · intro hne hfail
    have hrun : sb.run exec =
        (.error (e ++ "\n\nSQL: " ++ String.intercalate "\n" sb.toSQL), sb) := by
      unfold SchemaBuilder.run
      rw [if_neg (by simpa using hne)]
      simp only [hfail]
    exact ⟨hrun, by rw [hrun]⟩
  · intro hne hok
    unfold SchemaBuilder.run
    rw [if_neg (by simpa using hne)]
    simp only [hok]

/-- Witness for C8: a change set holding one raw statement `x;` keeps
its state and rethrows with the SQL appended when the executor rejects,
and clears its state when the executor succeeds. -/
theorem claim_C8_witness :
    (SchemaBuilder.run ⟨[SchemaChange.raw "x;"]⟩ (fun _ => .error "boom") =
        (.error ("boom" ++ "\n\nSQL: " ++
          String.intercalate "\n" (SchemaBuilder.toSQL ⟨[SchemaChange.raw "x;"]⟩)),
          (⟨[SchemaChange.raw "x;"]⟩ : SchemaBuilder)) ∧
      (SchemaBuilder.run ⟨[SchemaChange.raw "x;"]⟩ (fun _ => .error "boom")).2.toSQL =
        SchemaBuilder.toSQL ⟨[SchemaChange.raw "x;"]⟩) ∧
    SchemaBuilder.run ⟨[SchemaChange.raw "x;"]⟩ (fun _ => .ok ()) =
      (.ok (), ({ changes := [] } : SchemaBuilder)) :=
  ⟨(claim_C8 ⟨[SchemaChange.raw "x;"]⟩ (fun _ => .error "boom") "boom").1
      (by simp [SchemaBuilder.toSQL]) rfl,
    (claim_C8 ⟨[SchemaChange.raw "x;"]⟩ (fun _ => .ok ()) "unused").2
      (by simp [SchemaBuilder.toSQL]) rfl⟩

/-- C9 counterexample: on a builder whose selected-columns list is
`["name"]`, `count()` returns the builder state completely unchanged —
in particular it does not overwrite the selected-columns list, contrary
to the claim that `pluck` and `count` each do. -/
theorem claim_C9_counterexample :
    (QueryBuilder.count
        { table := "users"
          selectColumns := [.plain "name"]
          whereConditions := []
          limitValue := none
          offsetValue := none
          orderByConditions := []
          joinConditions := [] }).2 =
      { table := "users"
        selectColumns := [.plain "name"]
        whereConditions := []
        limitValue := none
        offsetValue := none
        orderByConditions := []
        joinConditions := [] } := rfl

/-- C9 (amended): `pluck(column)` overwrites the accumulated
selected-columns list with the single named column as a side effect of
compiling its query, and its query is exactly the compilation of that
overwritten state; `count()` builds its own `SELECT COUNT(*)` query and
leaves the builder state untouched; compilation (`toSql`) is a pure
function of the accumulated state, so repeated compilation from the
same state yields the same SQL. -/
theorem claim_C9_amended :
    ∀ (st : QueryBuilder) (col : String),
      (st.pluck col).2 = { st with selectColumns := [.plain col] } ∧
      (st.pluck col).1 = QueryBuilder.toSql { st with selectColumns := [.plain col] } ∧
      st.count.2 = st ∧
      st.toSql = st.toSql :=
  fun _ _ => ⟨rfl, rfl, rfl, rfl⟩

/-- C10: a two-argument `where(column, x)`/`orWhere(column, x)` call
(third argument absent, `x` not a null-operator token) records a column
condition with operator `=` and `x` as the comparison value, with no
operator validation; in particular `where(c, >)` with a `>` token and an absent
value records the condition `c = >` instead of raising an invalid
operator error. -/
theorem claim_C10 (st : QueryBuilder) (col : String) (x : JSValue)
    (h : isNullOpToken x = false) :
    st.whereFn col x .undefined =
      .ok { st with whereConditions := st.whereConditions ++ [.column .and col "=" x] } ∧
    st.orWhere col x .undefined =
      .ok { st with whereConditions := st.whereConditions ++ [.column .or col "=" x] } := by
  constructor <;>
    simp [QueryBuilder.whereFn, QueryBuilder.orWhere, QueryBuilder.whereImpl, JSValue.isUndef, h]

/-- Witness for C10: `where(c, >)` on a fresh builder records the
condition `c = >`. -/
theorem claim_C10_witness :
    (QueryBuilder.init "users").whereFn "c" (.str ">") .undefined =
      .ok { QueryBuilder.init "users" with
        whereConditions :=
          (QueryBuilder.init "users").whereConditions ++ [.column .and "c" "=" (.str ">")] } :=
  (claim_C10 (QueryBuilder.init "users") "c" (.str ">") rfl).1

end TypedPg
